import Mathlib

/-!
Shallow embedding of the OctoPrint-PrintFinishedWhen plugin
(`src/octoprint_print_finished_when/__init__.py`, the final snapshot).

Timestamps (Python `time.time()` values) are modelled at integer-second
granularity as `ℤ`; all duration arithmetic in the plugin is exact on such
inputs.  Python's `int(x)` truncation toward zero on an exact quotient
`a / 60` is modelled by `pyTruncDiv a 60`.  The host collaborators
(printer object, sinks, timer primitive) are modelled as explicit inputs
and output records of the tick function.
-/

namespace PrintFinishedWhen

/-- Python `int(a / b)` for integer `a` and positive integer `b`:
real division followed by truncation toward zero. -/
def pyTruncDiv (a : ℤ) (b : ℤ) : ℤ :=
  if a < 0 then -((-a) / b) else a / b

/-- A parsed `str.format` template: literal chunks and `\x7bname\x7d`
placeholder fields, in order. -/
inductive TemplatePart where
  | lit (s : String)
  | field (name : String)
  deriving DecidableEq

/-- Python `template.format(**fields)`: substitute each placeholder by the
value bound to its name; a placeholder whose name is not bound raises
`KeyError name`, modelled as `Except.error name`. -/
def renderParts (parts : List TemplatePart) (fields : List (String × String)) :
    Except String String :=
  match parts with
  | [] => Except.ok ""
  | TemplatePart.lit t :: rest =>
      (renderParts rest fields).map (fun r => t ++ r)
  | TemplatePart.field n :: rest =>
      match fields.lookup n with
      | none => Except.error n
      | some v => (renderParts rest fields).map (fun r => v ++ r)

/-- The plugin's instance fields (`__init__` plus the `log` wrapper set in
the initialization hook).  `timer` is `some interval` when a `RepeatedTimer`
is active (the interval in seconds it was created with), `none` otherwise. -/
structure PluginState where
  printFinishedAt : Option ℤ
  messagesActive : Bool
  timer : Option ℤ
  pausedAt : Option ℤ
  pausedDuration : ℤ
  log : Bool
  deriving DecidableEq

/-- The plugin state right after `__init__`: everything unset, logger not
yet installed. -/
def initialState : PluginState :=
  { printFinishedAt := none
    messagesActive := false
    timer := none
    pausedAt := none
    pausedDuration := 0
    log := false }

/-- The plugin state after the initialization hook has installed the
logging wrapper. -/
def readyState : PluginState :=
  { initialState with log := true }

/-- The settings snapshot the plugin reads (`get_settings_defaults` keys).
The template is stored pre-parsed. -/
structure Config where
  enabled : Bool
  intervalMinutes : ℤ
  startDelayMinutes : ℤ
  messageTemplate : List TemplatePart
  sendLcd : Bool
  sendPopup : Bool
  deriving DecidableEq

/-- `get_settings_defaults`. -/
def defaultSettings : Config :=
  { enabled := true
    intervalMinutes := 1
    startDelayMinutes := 5
    messageTemplate :=
      [TemplatePart.lit "Print finished ", TemplatePart.field "minutes",
       TemplatePart.lit " minute(s) ago"]
    sendLcd := true
    sendPopup := false }

/-- `_stop_timer`: cancel and drop the timer, clear `_messages_active`;
`_print_finished_at` is deliberately kept. -/
def stopTimer (s : PluginState) : PluginState :=
  { s with timer := none, messagesActive := false }

/-- `_reset_state`: stop the timer and clear the completion episode. -/
def resetState (s : PluginState) : PluginState :=
  { stopTimer s with printFinishedAt := none, pausedAt := none, pausedDuration := 0 }

/-- `_on_print_paused`: record the pause start unless already paused
(a duplicate pause is a logged warning and a no-op). -/
def onPrintPaused (s : PluginState) (now : ℤ) : PluginState :=
  match s.pausedAt with
  | none => { s with pausedAt := some now }
  | some _ => s

/-- `_on_print_resumed`: fold the finished pause into `_paused_duration`
and clear `_paused_at`; a resume with no active pause is a logged warning
and a no-op. -/
def onPrintResumed (s : PluginState) (now : ℤ) : PluginState :=
  match s.pausedAt with
  | some p =>
      { s with pausedDuration := s.pausedDuration + (now - p), pausedAt := none }
  | none => s

/-- `_on_print_done`: when enabled, start a fresh completion episode and
(re)start the repeated timer at the configured interval. -/
def onPrintDone (cfg : Config) (s : PluginState) (now : ℤ) : PluginState :=
  if cfg.enabled = false then s
  else
    let s1 : PluginState :=
      { s with printFinishedAt := some now
               pausedAt := none
               pausedDuration := 0
               messagesActive := false }
    let s2 := stopTimer s1
    { s2 with timer := some (cfg.intervalMinutes * 60) }

/-- The lifecycle events the plugin reacts to; `other` stands for any
event it ignores. -/
inductive Event where
  | printDone
  | printPaused
  | printResumed
  | printStarted
  | printCancelled
  | printFailed
  | other
  deriving DecidableEq

/-- `on_event`: drop every event until the logging wrapper exists, then
dispatch to the per-event handlers. -/
def onEvent (cfg : Config) (s : PluginState) (e : Event) (now : ℤ) : PluginState :=
  if s.log = false then s
  else
    match e with
    | Event.printDone => onPrintDone cfg s now
    | Event.printPaused => onPrintPaused s now
    | Event.printResumed => onPrintResumed s now
    | Event.printStarted => resetState s
    | Event.printCancelled => resetState s
    | Event.printFailed => resetState s
    | Event.other => s

/-- Python truthiness of `self._print_finished_at`: `None` and the zero
timestamp are both falsy. -/
def pyTruthy (t : Option ℤ) : Bool :=
  match t with
  | none => false
  | some v => if v = 0 then false else true

/-- The tick's elapsed-time expression:
`now - self._print_finished_at - self._paused_duration`. -/
def effectiveElapsed (t0 pausedDur now : ℤ) : ℤ :=
  now - t0 - pausedDur

/-- What happened to each sink on a dispatching tick. -/
structure DispatchResult where
  message : String
  lcdAttempted : Bool
  lcdOk : Bool
  popupAttempted : Bool
  popupOk : Bool
  deriving DecidableEq

/-- How a tick of `_send_message` ended, other than by an uncaught
exception. -/
inductive TickResult where
  | noPrinter
  | printerBusy
  | noFinishTime
  | belowDelay
  | dispatched (r : DispatchResult)
  deriving DecidableEq

/-- `_send_message`, one tick of the repeated timer.  `hasPrinter`,
`isPrinting`, `lcdFails`, `popupFails` model the printer collaborator and
whether each sink call raises.  Returns the new state and either a normal
`TickResult` or `Except.error name` for an exception that propagates out
of the tick uncaught (the `KeyError` from `template.format` is the only
such path). -/
def sendMessage (cfg : Config) (hasPrinter isPrinting lcdFails popupFails : Bool)
    (s : PluginState) (now : ℤ) : PluginState × Except String TickResult :=
  if hasPrinter = false then (s, Except.ok TickResult.noPrinter)
  else if isPrinting = true then (stopTimer s, Except.ok TickResult.printerBusy)
  else if pyTruthy s.printFinishedAt = false then (s, Except.ok TickResult.noFinishTime)
  else
    let t0 := s.printFinishedAt.getD 0
    let elapsedMinutes := pyTruncDiv (effectiveElapsed t0 s.pausedDuration now) 60
    if elapsedMinutes < cfg.startDelayMinutes then (s, Except.ok TickResult.belowDelay)
    else
      let s1 := if s.messagesActive = false then { s with messagesActive := true } else s
      match renderParts cfg.messageTemplate [("minutes", toString elapsedMinutes)] with
      | Except.error name => (s1, Except.error name)
      | Except.ok msg =>
          (s1, Except.ok (TickResult.dispatched
            { message := msg
              lcdAttempted := cfg.sendLcd
              lcdOk := cfg.sendLcd && !lcdFails
              popupAttempted := cfg.sendPopup
              popupOk := cfg.sendPopup && !popupFails }))

/-- States reachable from the freshly constructed plugin by the lifecycle
handler operations (done, pause, resume, and the start/cancel/fail reset). -/
inductive Reachable (cfg : Config) : PluginState → Prop where
  | init : Reachable cfg initialState
  | done (s : PluginState) (now : ℤ) :
      Reachable cfg s → Reachable cfg (onPrintDone cfg s now)
  | pause (s : PluginState) (now : ℤ) :
      Reachable cfg s → Reachable cfg (onPrintPaused s now)
  | resume (s : PluginState) (now : ℤ) :
      Reachable cfg s → Reachable cfg (onPrintResumed s now)
  | reset (s : PluginState) :
      Reachable cfg s → Reachable cfg (resetState s)

/-- The four message tiers of the specification. -/
inductive MessageTier where
  | underMinute
  | underHour
  | underDay
  | overDay
  deriving DecidableEq

/-- Modelled from the spec: the Duration Decomposer of the tiered snapshot
is not among the source files under `src/` (the snapshot there has a single
`minutes` template).  Numeric fields per the spec's words: floor division
at each radix, remainders via modulo; the composite display strings are not
needed by any claim and are omitted. -/
structure DecomposedDuration where
  totalSeconds : ℕ
  minutes : ℕ
  hours : ℕ
  days : ℕ
  secondsRemainder : ℕ
  minutesRemainder : ℕ
  hoursRemainder : ℕ
  deriving DecidableEq

/-- Modelled from the spec: `decompose(totalSeconds)` with
`minutes = totalSeconds // 60`, `hours = minutes // 60`,
`days = hours // 24`, remainders via modulo at the same radix. -/
def decompose (s : ℕ) : DecomposedDuration :=
  let minutes := s / 60
  let hours := minutes / 60
  let days := hours / 24
  { totalSeconds := s
    minutes := minutes
    hours := hours
    days := days
    secondsRemainder := s % 60
    minutesRemainder := minutes % 60
    hoursRemainder := hours % 24 }

/-- Modelled from the spec: `selectTier`, evaluated in order, first match
wins. -/
def selectTier (d : DecomposedDuration) : MessageTier :=
  if d.totalSeconds < 60 then MessageTier.underMinute
  else if d.minutes < 60 then MessageTier.underHour
  else if d.hours < 24 then MessageTier.underDay
  else MessageTier.overDay

/-- A completed-print state used by concrete scenarios: print finished at
timestamp 100, no pause, logger installed. -/
def completedAt100 : PluginState :=
  { readyState with printFinishedAt := some 100 }

/-- C1: for every completion episode, the tick's effective elapsed seconds
equal wall-clock time since the completion timestamp minus the accumulated
pause time: with `finishedAt = T0`, a pause from `T0+10` to `T0+40`
accumulates 30 seconds of pause, and querying at `now = T0+100` yields 70. -/
theorem effective_elapsed_pause_accounting (T0 : ℤ) :
    let s0 : PluginState := { readyState with printFinishedAt := some T0 }
    let s1 := onPrintResumed (onPrintPaused s0 (T0 + 10)) (T0 + 40)
    s1.printFinishedAt = some T0 ∧ s1.pausedDuration = 30 ∧
      effectiveElapsed T0 s1.pausedDuration (T0 + 100) = 70 := by
  refine ⟨rfl, ?_, ?_⟩ <;>
    simp [onPrintPaused, onPrintResumed, effectiveElapsed, readyState, initialState]

/-- C5: `selectTier ∘ decompose` realizes the ordered four-tier rule with
exact boundaries: 59 is under-minute, 60 and 3599 under-hour, 3600 and
86399 under-day, 86400 over-day; the tiers are mutually exclusive and
exhaustive over the non-negative integers. -/
theorem tier_selection_boundaries :
    (∀ s : ℕ, selectTier (decompose s) =
      if s < 60 then MessageTier.underMinute
      else if s < 3600 then MessageTier.underHour
      else if s < 86400 then MessageTier.underDay
      else MessageTier.overDay) ∧
    selectTier (decompose 59) = MessageTier.underMinute ∧
    selectTier (decompose 60) = MessageTier.underHour ∧
    selectTier (decompose 3599) = MessageTier.underHour ∧
    selectTier (decompose 3600) = MessageTier.underDay ∧
    selectTier (decompose 86399) = MessageTier.underDay ∧
    selectTier (decompose 86400) = MessageTier.overDay := by
  refine ⟨fun s => ?_, by decide, by decide, by decide, by decide, by decide, by decide⟩
  simp only [selectTier, decompose]
  split_ifs <;> first | rfl | omega

/-- C6: duplicate or out-of-order pause/resume events leave the state
unchanged: a second pause is a no-op (`pause; pause` equals a single
`pause`), a pause while already paused is a no-op, and a resume with no
active pause is a no-op. -/
theorem duplicate_pause_resume_noop :
    (∀ (s : PluginState) (t1 t2 : ℤ),
      onPrintPaused (onPrintPaused s t1) t2 = onPrintPaused s t1) ∧
    (∀ (s : PluginState) (t : ℤ), s.pausedAt ≠ none → onPrintPaused s t = s) ∧
    (∀ (s : PluginState) (t : ℤ), s.pausedAt = none → onPrintResumed s t = s) := by
  refine ⟨?_, ?_, ?_⟩
  · intro s t1 t2
    cases h : s.pausedAt <;> simp [onPrintPaused, h]
  · intro s t h
    cases hp : s.pausedAt with
    | none => exact absurd hp h
    | some p => simp [onPrintPaused, hp]
  · intro s t h
    simp [onPrintResumed, h]

/-- Witness for C6 at concrete inputs: a second pause at time 9 after a
pause at time 3 changes nothing, and a resume in the never-paused ready
state changes nothing. -/
theorem duplicate_pause_resume_noop_witness :
    onPrintPaused (onPrintPaused readyState 3) 9 = onPrintPaused readyState 3 ∧
    onPrintResumed readyState 7 = readyState :=
  ⟨duplicate_pause_resume_noop.1 readyState 3 9,
   duplicate_pause_resume_noop.2.2 readyState 7 rfl⟩

/-- C10: every event delivered before the initialization hook has installed
the logging wrapper is dropped: the state (and hence every field and the
timer) is unchanged. -/
theorem events_dropped_before_init (cfg : Config) (s : PluginState) (e : Event)
    (now : ℤ) (h : s.log = false) : onEvent cfg s e now = s := by
  simp [onEvent, h]

/-- Witness for C10: a `PrintDone` event on the freshly constructed plugin
(before initialization) leaves the initial state untouched. -/
theorem events_dropped_before_init_witness :
    onEvent defaultSettings initialState Event.printDone 5 = initialState :=
  events_dropped_before_init defaultSettings initialState Event.printDone 5 rfl

/-- Counterexample to C3: the effective-elapsed query is not clamped — in a
state with `finishedAt = 100`, querying at `now = 40` yields `-60`, a
negative value, not zero. -/
theorem effective_elapsed_can_be_negative :
    effectiveElapsed (completedAt100.printFinishedAt.getD 0)
        completedAt100.pausedDuration 40 = -60 ∧
    effectiveElapsed (completedAt100.printFinishedAt.getD 0)
        completedAt100.pausedDuration 40 < 0 := by
  refine ⟨rfl, ?_⟩
  decide

/-- Counterexample to C4: a pause event received while no completion
episode is active sets `pausedAt` with `finishedAt` unset, and that state
is reachable from the initial state by a single pause operation. -/
theorem paused_without_finished_reachable :
    Reachable defaultSettings (onPrintPaused initialState 5) ∧
    (onPrintPaused initialState 5).pausedAt = some 5 ∧
    (onPrintPaused initialState 5).printFinishedAt = none :=
  ⟨Reachable.pause initialState 5 Reachable.init, rfl, rfl⟩

/-- C4 (amended): per lifecycle operation, `pausedDuration` never decreases
— a pause leaves it unchanged, and a resume whose timestamp is not before
the pending pause start only adds to it — except that it is reset to zero
by a `PrintDone` handled with the plugin enabled (which re-sets
`finishedAt := now`) and by the start/cancel/fail reset (which clears
`finishedAt`); a `PrintDone` with the plugin disabled changes nothing. -/
theorem pause_duration_monotone_step (cfg : Config) (s : PluginState) (now : ℤ) :
    s.pausedDuration ≤ (onPrintPaused s now).pausedDuration ∧
    ((∀ p, s.pausedAt = some p → p ≤ now) →
      s.pausedDuration ≤ (onPrintResumed s now).pausedDuration) ∧
    (cfg.enabled = true →
      (onPrintDone cfg s now).pausedDuration = 0 ∧
      (onPrintDone cfg s now).printFinishedAt = some now) ∧
    (cfg.enabled = false → onPrintDone cfg s now = s) ∧
    (resetState s).pausedDuration = 0 ∧ (resetState s).printFinishedAt = none := by
  refine ⟨?_, ?_, ?_, ?_, rfl, rfl⟩
  · cases h : s.pausedAt <;> simp [onPrintPaused, h]
  · intro hmono
    cases h : s.pausedAt with
    | none => simp [onPrintResumed, h]
    | some p =>
        have hp := hmono p h
        simp [onPrintResumed, h]
        omega
  · intro he
    constructor <;> simp [onPrintDone, he, stopTimer]
  · intro he
    simp [onPrintDone, he]

/-- Witness for C4 (amended) at concrete inputs: resuming at time 10 a
pause begun at time 3 does not decrease the accumulated pause duration,
and the reset operation zeroes it while clearing `finishedAt`. -/
theorem pause_duration_monotone_step_witness :
    (onPrintPaused readyState 3).pausedDuration ≤
      (onPrintResumed (onPrintPaused readyState 3) 10).pausedDuration ∧
    (resetState (onPrintPaused readyState 3)).pausedDuration = 0 := by
  have h := pause_duration_monotone_step defaultSettings (onPrintPaused readyState 3) 10
  refine ⟨h.2.1 ?_, h.2.2.2.2.1⟩
  intro p hp
  simp [onPrintPaused, readyState, initialState] at hp
  omega

/-- C3 (amended): the effective-elapsed query itself is not clamped and can
go negative, but whenever the configured start delay is non-negative, any
tick that reaches the rendering step (dispatch or a rendering error) has
computed a non-negative elapsed-minutes value, so the formatting step never
receives a negative input. -/
theorem gated_minutes_nonneg (cfg : Config) (lf pf : Bool) (s : PluginState)
    (now : ℤ) (r : DispatchResult) (e : String)
    (hsd : 0 ≤ cfg.startDelayMinutes)
    (h : (sendMessage cfg true false lf pf s now).2 =
           Except.ok (TickResult.dispatched r) ∨
         (sendMessage cfg true false lf pf s now).2 = Except.error e) :
    0 ≤ pyTruncDiv (effectiveElapsed (s.printFinishedAt.getD 0) s.pausedDuration now) 60 := by
  unfold sendMessage at h
  by_cases ht : pyTruthy s.printFinishedAt = false
  · simp [ht] at h
  · by_cases hg : pyTruncDiv (effectiveElapsed (s.printFinishedAt.getD 0)
        s.pausedDuration now) 60 < cfg.startDelayMinutes
    · simp [ht, hg] at h
    · omega

/-- Witness for C3 (amended): with the default settings (start delay 5),
the tick at time 700 on a print finished at 100 dispatches, and its
elapsed-minutes value is non-negative. -/
theorem gated_minutes_nonneg_witness :
    0 ≤ defaultSettings.startDelayMinutes ∧
    0 ≤ pyTruncDiv (effectiveElapsed (completedAt100.printFinishedAt.getD 0)
          completedAt100.pausedDuration 700) 60 :=
  ⟨by decide,
   gated_minutes_nonneg defaultSettings false false completedAt100 700
     { message := "Print finished 10 minute(s) ago", lcdAttempted := true,
       lcdOk := true, popupAttempted := false, popupOk := false } "x"
     (by decide) (Or.inl rfl)⟩

/-- C7: a `PrintStarted`, `PrintCancelled` or `PrintFailed` event on an
initialized plugin resets everything — timer stopped, `finishedAt`,
`pausedAt` cleared, accumulated pause zeroed — and a later tick performs
no action: it either exits at the busy check (changing nothing, since the
timer is already stopped) or at the missing-completion check, dispatching
nothing and leaving the state unchanged. -/
theorem reset_events_clear_state (cfg : Config) (s : PluginState) (e : Event)
    (now : ℤ)
    (he : e = Event.printStarted ∨ e = Event.printCancelled ∨ e = Event.printFailed)
    (hl : s.log = true) :
    (onEvent cfg s e now).timer = none ∧
    (onEvent cfg s e now).printFinishedAt = none ∧
    (onEvent cfg s e now).pausedAt = none ∧
    (onEvent cfg s e now).pausedDuration = 0 ∧
    ∀ (ip lf pf : Bool) (now2 : ℤ),
      sendMessage cfg true ip lf pf (onEvent cfg s e now) now2 =
        (onEvent cfg s e now,
         Except.ok (if ip = true then TickResult.printerBusy
                    else TickResult.noFinishTime)) := by
  have hre : onEvent cfg s e now = resetState s := by
    rcases he with h | h | h <;> subst h <;> simp [onEvent, hl]
  rw [hre]
  refine ⟨rfl, rfl, rfl, rfl, ?_⟩
  intro ip lf pf now2
  cases ip with
  | true => simp [sendMessage, resetState, stopTimer]
  | false => simp [sendMessage, resetState, stopTimer, pyTruthy]

/-- Witness for C7: a `PrintStarted` event on a completed episode clears
`finishedAt`, and the next tick at time 999 returns without any action. -/
theorem reset_events_clear_state_witness :
    (onEvent defaultSettings completedAt100 Event.printStarted 200).printFinishedAt
      = none ∧
    sendMessage defaultSettings true false false false
        (onEvent defaultSettings completedAt100 Event.printStarted 200) 999 =
      (onEvent defaultSettings completedAt100 Event.printStarted 200,
       Except.ok TickResult.noFinishTime) := by
  have h := reset_events_clear_state defaultSettings completedAt100
    Event.printStarted 200 (Or.inl rfl) rfl
  refine ⟨h.2.1, ?_⟩
  have h2 := h.2.2.2.2 false false false 999
  simpa using h2

/-- C9: on a successful render the sinks are driven independently: each
sink is attempted exactly when its toggle is enabled, each sink's success
depends only on its own failure flag (an LCD failure cannot suppress the
popup and vice versa, since each dispatch is wrapped in its own handler),
the tick ends normally rather than aborting, and the completion state and
timer survive unchanged. -/
theorem sink_dispatch_independent (cfg : Config) (lf pf : Bool) (s : PluginState)
    (now : ℤ) (r : DispatchResult)
    (h : (sendMessage cfg true false lf pf s now).2 =
      Except.ok (TickResult.dispatched r)) :
    (sendMessage cfg true false lf pf s now).1.timer = s.timer ∧
    (sendMessage cfg true false lf pf s now).1.printFinishedAt = s.printFinishedAt ∧
    (sendMessage cfg true false lf pf s now).1.pausedDuration = s.pausedDuration ∧
    r.lcdAttempted = cfg.sendLcd ∧ r.popupAttempted = cfg.sendPopup ∧
    r.lcdOk = (cfg.sendLcd && !lf) ∧ r.popupOk = (cfg.sendPopup && !pf) := by
  unfold sendMessage at h ⊢
  by_cases ht : pyTruthy s.printFinishedAt = false
  · simp [ht] at h
  · by_cases hg : pyTruncDiv (effectiveElapsed (s.printFinishedAt.getD 0)
        s.pausedDuration now) 60 < cfg.startDelayMinutes
    · simp [ht, hg] at h
    · cases hr : renderParts cfg.messageTemplate
          [("minutes", toString (pyTruncDiv (effectiveElapsed
            (s.printFinishedAt.getD 0) s.pausedDuration now) 60))] with
      | error e => simp [ht, hg, hr] at h
      | ok msg =>
          simp only [ht, hg, hr] at h
          simp [ht, hg, hr] at h
          subst h
          simp [ht, hg, hr]
          cases hm : s.messagesActive <;> simp [hm]

/-- A settings snapshot with both sinks enabled, used to witness sink
independence. -/
def bothSinksSettings : Config :=
  { defaultSettings with sendPopup := true }

/-- Witness for C9: with both sinks enabled and the LCD sink failing, the
tick at time 700 on a print finished at 100 still attempts and succeeds on
the popup sink, and leaves timer and completion fields unchanged. -/
theorem sink_dispatch_independent_witness :
    (sendMessage bothSinksSettings true false true false completedAt100 700).1.timer
      = completedAt100.timer ∧
    (sendMessage bothSinksSettings true false true false
        completedAt100 700).1.printFinishedAt = completedAt100.printFinishedAt ∧
    (sendMessage bothSinksSettings true false true false
        completedAt100 700).1.pausedDuration = completedAt100.pausedDuration ∧
    (true : Bool) = bothSinksSettings.sendLcd ∧
    (true : Bool) = bothSinksSettings.sendPopup ∧
    (false : Bool) = (bothSinksSettings.sendLcd && !true) ∧
    (true : Bool) = (bothSinksSettings.sendPopup && !false) :=
  sink_dispatch_independent bothSinksSettings true false completedAt100 700
    { message := "Print finished 10 minute(s) ago", lcdAttempted := true,
      lcdOk := false, popupAttempted := true, popupOk := true } rfl

/-- A settings snapshot whose template references the field `hours`, which
is not in the single-entry field mapping the tick supplies. -/
def unknownFieldSettings : Config :=
  { defaultSettings with messageTemplate :=
      [TemplatePart.lit "Finished ", TemplatePart.field "hours",
       TemplatePart.lit "h ago"] }

/-- C2 (code behavior at the failing input): a tick whose template
references the unknown field `hours` raises an uncaught `KeyError` out of
`_send_message` — the error is not caught and logged, so the tick crashes
instead of being skipped — with no message dispatched; the completion
fields (`finishedAt`, `pausedAt`, `pausedDuration`) are unchanged, though
`_messages_active` has already been flipped before rendering. -/
theorem unknown_placeholder_uncaught :
    sendMessage unknownFieldSettings true false false false completedAt100 700 =
      ({ completedAt100 with messagesActive := true }, Except.error "hours") ∧
    ({ completedAt100 with messagesActive := true }).printFinishedAt =
      completedAt100.printFinishedAt ∧
    ({ completedAt100 with messagesActive := true }).pausedAt =
      completedAt100.pausedAt ∧
    ({ completedAt100 with messagesActive := true }).pausedDuration =
      completedAt100.pausedDuration :=
  ⟨rfl, rfl, rfl, rfl⟩

/-- The end-to-end scenario settings of C8: enabled, one-minute interval,
five-minute (300 second) start delay, template `Finished \x7bminutes\x7dm ago`,
LCD sink only. -/
def scenarioSettings : Config :=
  { enabled := true
    intervalMinutes := 1
    startDelayMinutes := 5
    messageTemplate :=
      [TemplatePart.lit "Finished ", TemplatePart.field "minutes",
       TemplatePart.lit "m ago"]
    sendLcd := true
    sendPopup := false }

/-- C8: start-delay gating end to end — after `PrintDone` at `T0` the timer
runs at 60-second interval; the tick at `T0+290` dispatches nothing and
changes nothing (below the delay), while the tick at `T0+310` dispatches
exactly `Finished 5m ago` to the LCD sink. -/
theorem start_delay_gating_scenario (T0 : ℤ) (h : T0 ≠ 0) :
    let s0 : PluginState := onEvent scenarioSettings readyState Event.printDone T0
    s0.printFinishedAt = some T0 ∧ s0.timer = some 60 ∧
    sendMessage scenarioSettings true false false false s0 (T0 + 290) =
      (s0, Except.ok TickResult.belowDelay) ∧
    (sendMessage scenarioSettings true false false false s0 (T0 + 310)).2 =
      Except.ok (TickResult.dispatched
        { message := "Finished 5m ago", lcdAttempted := true, lcdOk := true,
          popupAttempted := false, popupOk := false }) := by
  have hs0 : onEvent scenarioSettings readyState Event.printDone T0 =
      { printFinishedAt := some T0, messagesActive := false, timer := some 60,
        pausedAt := none, pausedDuration := 0, log := true } := by
    simp [onEvent, readyState, initialState, onPrintDone, stopTimer, scenarioSettings]
  have e1 : effectiveElapsed T0 0 (T0 + 290) = 290 := by
    unfold effectiveElapsed; ring
  have e2 : effectiveElapsed T0 0 (T0 + 310) = 310 := by
    unfold effectiveElapsed; ring
  have d1 : pyTruncDiv 290 60 = 4 := by decide
  have d2 : pyTruncDiv 310 60 = 5 := by decide
  have hr : renderParts
      [TemplatePart.lit "Finished ", TemplatePart.field "minutes",
       TemplatePart.lit "m ago"]
      [("minutes", toString (5 : ℤ))] = Except.ok "Finished 5m ago" := rfl
  simp only [hs0]
  refine ⟨trivial, trivial, ?_, ?_⟩
  · simp [sendMessage, pyTruthy, h, e1, d1, scenarioSettings]
  · simp [sendMessage, pyTruthy, h, e2, d2, hr, scenarioSettings]

/-- Witness for C8 at `T0 = 10000`: the tick at 10290 only waits, the tick
at 10310 dispatches `Finished 5m ago`. -/
theorem start_delay_gating_scenario_witness :
    (onEvent scenarioSettings readyState Event.printDone 10000).printFinishedAt
      = some 10000 ∧
    sendMessage scenarioSettings true false false false
        (onEvent scenarioSettings readyState Event.printDone 10000) 10290 =
      (onEvent scenarioSettings readyState Event.printDone 10000,
       Except.ok TickResult.belowDelay) ∧
    (sendMessage scenarioSettings true false false false
        (onEvent scenarioSettings readyState Event.printDone 10000) 10310).2 =
      Except.ok (TickResult.dispatched
        { message := "Finished 5m ago", lcdAttempted := true, lcdOk := true,
          popupAttempted := false, popupOk := false }) := by
  have h := start_delay_gating_scenario 10000 (by decide)
  exact ⟨h.1, h.2.2.1, h.2.2.2⟩

end PrintFinishedWhen
